import Mathlib

/-!
Verification of the `maybe_uninit` uninitialized-storage primitive
(`src/maybe_uninit.hpp`, which holds two variants of the library:
the earlier v1 `mem::maybe_uninit<T, SELF_DESTRUCT>` with members
`init` / `default_init` / `destruct`, and the later v2
`mem::maybe_uninit<T>` with members `default_init` / `paren_init` /
`brace_init` / `destroy` / `ptr` / `ref` / `bytes`).

The embedding models one storage cell as a record carrying the current
storage interpretation together with two ghost fields used purely for
reasoning: the caller-side liveness flag and a counter of observable
(that is, non-trivial) payload-destructor executions.  A C++ payload
type `T` is modelled by its compile-time traits (destructibility,
trivial destructibility, noexcept-ness of its destructor) and, for the
construction strategies, by a `Payload` record stating which
placement-new forms are well-formed (`none` models an ill-formed
expression, hence a call that is rejected at compile time) and which
value each well-formed form produces.
-/

namespace MaybeUninit

/-- Compile-time destructor-related traits of a C++ payload type `T`:
`std::is_destructible_v<T>`, `std::is_trivially_destructible_v<T>` and
whether `~T()` is noexcept. -/
structure Traits where
  destructible : Bool
  triviallyDestructible : Bool
  dtorNoexcept : Bool
deriving DecidableEq

variable {α β : Type}

/-- One storage cell.  `val` is the current content of the storage
interpreted as a `T` value; `live` and `dtorRuns` are ghost fields:
whether a constructed value currently occupies the storage, and how many
observable (non-trivial) executions of `~T()` have happened on it. -/
structure Cell (α : Type) where
  val : α
  live : Bool
  dtorRuns : Nat
deriving DecidableEq

/-- `maybe_uninit()` (v1 line 71, v2 line 418): no initialization is
performed, the storage holds indeterminate content `junk`. -/
def mkUninit (junk : α) : Cell α := { val := junk, live := false, dtorRuns := 0 }

/-- `std::destroy_at(addressof(object))`: runs `~T()`, ending the
object's lifetime; a trivial destructor has no observable effect, a
non-trivial one is one observable destructor execution. -/
def destroyAt (tr : Traits) (s : Cell α) : Cell α :=
  { s with
    live := false
    dtorRuns := s.dtorRuns + (if tr.triviallyDestructible then 0 else 1) }

/-- `std::construct_at` / placement new of a value `v` in the storage:
starts the lifetime of a new object whose value is `v`. -/
def constructAt (v : α) (s : Cell α) : Cell α :=
  { s with val := v, live := true }

/-- v1 `maybe_uninit::destruct` (lines 163-172): inside
`if constexpr (std::is_destructible_v<T>)`, the call to
`std::destroy_at` is guarded by
`if constexpr (std::is_trivially_destructible_v<T>)` — so `destroy_at`
runs exactly when `T` is trivially destructible. -/
def destruct (tr : Traits) (s : Cell α) : Cell α :=
  if tr.destructible then
    if tr.triviallyDestructible then destroyAt tr s else s
  else s

/-- v1 destructors of `maybe_uninit<T, SELF_DESTRUCT>` (lines 174-186):
for trivially destructible `T` the defaulted destructor is selected and
does nothing; otherwise the general destructor runs, and calls
`destruct()` when `SELF_DESTRUCT` holds (and `T` is destructible). -/
def teardown (tr : Traits) (selfDestruct : Bool) (s : Cell α) : Cell α :=
  if tr.triviallyDestructible then s
  else if selfDestruct then
    if tr.destructible then destruct tr s else s
  else s

/-- v2 `maybe_uninit::destroy` (lines 568-572):
`if constexpr (not std::is_trivially_destructible_v<T>)
  std::destroy_at(addressof(self.object));`. -/
def destroy (tr : Traits) (s : Cell α) : Cell α :=
  if tr.triviallyDestructible then s else destroyAt tr s

/-- Model of a C++ payload type `T` over value set `α`, with one
argument-list type `β`.  Each `...New` field gives the result of the
corresponding placement-new form — `::new (p) T`, `::new (p) T(args...)`
and `::new (p) T{args...}` — where `none` models an ill-formed
expression: the matching concept (`detail::default_constructible`,
`detail::paren_constructible_from`, `detail::brace_constructible_from`,
v2 lines 324-337) is not satisfied and any entry point requiring it is
rejected at compile time.  Default initialization may leave trivial
storage untouched, so `defaultNew` is a function of the previous storage
content.  The `...Noexcept` fields state whether the corresponding
constructor form of `T` is noexcept. -/
structure Payload (α β : Type) where
  tr : Traits
  defaultNew : Option (α → α)
  parenNew : β → Option α
  braceNew : β → Option α
  defaultNoexcept : Bool
  parenNoexcept : β → Bool
  braceNoexcept : β → Bool

/-- `detail::default_constructible<T>` (v2 lines 324-325). -/
def default_constructible (P : Payload α β) : Bool :=
  P.defaultNew.isSome

/-- `detail::paren_constructible_from<T, Args...>` (v2 lines 329-331). -/
def paren_constructible_from (P : Payload α β) (args : β) : Bool :=
  (P.parenNew args).isSome

/-- `detail::brace_constructible_from<T, Args...>` (v2 lines 335-337). -/
def brace_constructible_from (P : Payload α β) (args : β) : Bool :=
  (P.braceNew args).isSome

/-- `detail::nothrow_default_constructible<T>` (v2 lines 340-343): the
placement-new expression is well-formed and noexcept. -/
def nothrow_default_constructible (P : Payload α β) : Bool :=
  P.defaultNew.isSome && P.defaultNoexcept

/-- `detail::nothrow_paren_constructible_from<T, Args...>` (v2 lines 346-349). -/
def nothrow_paren_constructible_from (P : Payload α β) (args : β) : Bool :=
  (P.parenNew args).isSome && P.parenNoexcept args

/-- `detail::nothrow_brace_constructible_from<T, Args...>` (v2 lines 352-355). -/
def nothrow_brace_constructible_from (P : Payload α β) (args : β) : Bool :=
  (P.braceNew args).isSome && P.braceNoexcept args

/-- v2 `maybe_uninit::default_init` (lines 475-483): requires
`detail::default_constructible<T>` (else the call is ill-formed, `none`);
on success performs `*::new (...) T` and returns a reference to the
constructed object (modelled as the pair of the updated cell and the
referenced value). -/
def default_init (P : Payload α β) (s : Cell α) : Option (Cell α × α) :=
  match P.defaultNew with
  | none => none
  | some f => some (constructAt (f s.val) s, f s.val)

/-- v2 `maybe_uninit::paren_init` (lines 492-501): requires
`detail::paren_constructible_from<T, Args...>`; on success performs
`*::new (...) T(std::forward<Args>(args)...)` and returns a reference to
the constructed object. -/
def paren_init (P : Payload α β) (s : Cell α) (args : β) : Option (Cell α × α) :=
  match P.parenNew args with
  | none => none
  | some v => some (constructAt v s, v)

/-- v2 `maybe_uninit::brace_init` (lines 510-519): requires
`detail::brace_constructible_from<T, Args...>`; on success performs
`*::new (...) T{std::forward<Args>(args)...}` and returns a reference to
the constructed object. -/
def brace_init (P : Payload α β) (s : Cell α) (args : β) : Option (Cell α × α) :=
  match P.braceNew args with
  | none => none
  | some v => some (constructAt v s, v)

/-- v2 tag constructor `maybe_uninit(default_init_t)` (lines 423-427):
requires `detail::default_constructible<T>` and its body calls
`this->default_init()` on the freshly created (uninitialized) cell. -/
def mkDefaultTag (P : Payload α β) (junk : α) : Option (Cell α) :=
  if default_constructible P then
    (default_init P (mkUninit junk)).map Prod.fst
  else none

/-- v2 tag constructor `maybe_uninit(paren_init_t, Args&&...)`
(lines 434-442): requires `detail::paren_constructible_from<T, Args...>`
and its body calls `this->paren_init(std::forward<Args>(args)...)`. -/
def mkParenTag (P : Payload α β) (junk : α) (args : β) : Option (Cell α) :=
  if paren_constructible_from P args then
    (paren_init P (mkUninit junk) args).map Prod.fst
  else none

/-- v2 tag constructor `maybe_uninit(brace_init_t, Args&&...)`
(lines 449-457): requires `detail::brace_constructible_from<T, Args...>`
and its body calls `this->brace_init(std::forward<Args>(args)...)`. -/
def mkBraceTag (P : Payload α β) (junk : α) (args : β) : Option (Cell α) :=
  if brace_constructible_from P args then
    (brace_init P (mkUninit junk) args).map Prod.fst
  else none

/-- v2 free function `default_init<T>()` (lines 604-609): requires
`detail::default_constructible<T>` and returns
`maybe_uninit<T>{default_init_t{}}`. -/
def free_default_init (P : Payload α β) (junk : α) : Option (Cell α) :=
  if default_constructible P then mkDefaultTag P junk else none

/-- v2 free function `paren_init<T>(Args&&...)` (lines 613-630):
requires `detail::paren_constructible_from<T, Args...>` and returns
`maybe_uninit<T>{paren_init_t{}, std::forward<Args>(args)...}`. -/
def free_paren_init (P : Payload α β) (junk : α) (args : β) : Option (Cell α) :=
  if paren_constructible_from P args then mkParenTag P junk args else none

/-- v2 free function `brace_init<T>(Args&&...)` (lines 634-651):
requires `detail::brace_constructible_from<T, Args...>` and returns
`maybe_uninit<T>{brace_init_t{}, std::forward<Args>(args)...}`. -/
def free_brace_init (P : Payload α β) (junk : α) (args : β) : Option (Cell α) :=
  if brace_constructible_from P args then mkBraceTag P junk args else none

/-- v2 `maybe_uninit::ref` (lines 537-541): returns
`std::forward<Self>(self).object`, the storage interpreted as `T`. -/
def ref (s : Cell α) : α := s.val

/-- v1 `maybe_uninit::assume_init` (lines 148-161): returns `m_t`, the
storage interpreted as `T`. -/
def assume_init (s : Cell α) : α := s.val

/-- Little-endian object representation of a 32-bit unsigned integer
value: the four bytes of `v`, least significant first. -/
def toLEBytes (v : Nat) : List Nat :=
  [v % 256, v / 256 % 256, v / 65536 % 256, v / 16777216 % 256]

/-- Value whose little-endian object representation is the given four
bytes (any other list decodes to 0; the byte view of a `uint32_t` cell
always has exactly four bytes). -/
def fromLEBytes : List Nat → Nat
  | [b0, b1, b2, b3] => b0 + 256 * b1 + 65536 * b2 + 16777216 * b3
  | _ => 0

/-- v2 `maybe_uninit::bytes` (lines 547-560) for `T = std::uint32_t` on
a little-endian target: the span of exactly `sizeof(T) = 4` raw bytes
aliased to the storage, i.e. the object representation of `val`. -/
def bytesU32 (s : Cell Nat) : List Nat := toLEBytes s.val

/-- Writing a byte pattern through the span returned by `bytes()`: the
span aliases the storage, so the cell's content becomes the value whose
object representation is the written bytes. -/
def writeBytesU32 (s : Cell Nat) (bs : List Nat) : Cell Nat :=
  { s with val := fromLEBytes bs }

/-- Constness of the byte type of the span returned by `bytes()`
(v2 line 553): `std::conditional_t<detail::const_ref<Self> or
std::is_const_v<T>, std::byte const, std::byte>`. -/
def bytesConst (selfConst tConst : Bool) : Bool := selfConst || tConst

/-- Concrete live cell of a non-trivially-destructible payload: a value
is live and no destructor has run yet. -/
def ntLiveCell : Cell Nat := { val := 7, live := true, dtorRuns := 0 }

/-- Traits of a non-trivially-destructible (but destructible, noexcept)
payload type, e.g. the v1 README's
`struct NonTrivial { NonTrivial(int) {} ~NonTrivial() { /* effect */ } }`. -/
def ntTraits : Traits :=
  { destructible := true, triviallyDestructible := false, dtorNoexcept := true }

/-- The v1 README auto-destruct example: `maybe_uninit<NonTrivial, true>`
cell after `init(42)` (the member `init`, lines 125-136, performs
`std::construct_at` on the uninitialized storage). -/
def ntAutoCell : Cell Nat := constructAt 42 (mkUninit 0)

/-- C1: the spec claims `destruct`/`destroy` are a no-op for trivially
destructible `T` and actually invoke `~T()` for non-trivially
destructible `T` (given a live value).  The v2 `destroy` behaves that
way, but the v1 `destruct` has the `is_trivially_destructible` guard
inverted: on a live cell of a non-trivially-destructible type it
performs zero destructor executions and leaves the value live, while
`destroy` on the same cell performs exactly one and ends the lifetime. -/
theorem destruct_skips_nontrivial_dtor :
    (destruct ntTraits ntLiveCell).dtorRuns = 0
    ∧ (destruct ntTraits ntLiveCell).live = true
    ∧ (destroy ntTraits ntLiveCell).dtorRuns = 1
    ∧ (destroy ntTraits ntLiveCell).live = false := by
  decide

/-- C2: the spec claims that with the auto-destruct (`SELF_DESTRUCT`)
flag set, construct-then-teardown runs the payload destructor exactly
once, as does construct-then-explicit-destruct-then-teardown.  In the
code, for a non-trivially-destructible payload, teardown calls
`destruct()`, whose inverted guard skips the destructor entirely: both
scenarios perform zero destructor executions, not one. -/
theorem selfdestruct_runs_zero_dtors :
    (teardown ntTraits true ntAutoCell).dtorRuns = 0
    ∧ (teardown ntTraits true (destruct ntTraits ntAutoCell)).dtorRuns = 0 := by
  decide

/-- The README's `NonTrivial` payload: `NonTrivial() = delete;
NonTrivial(int) {}` and no declared destructor.  Its value is modelled
by the `int` it was constructed from, so direct construction `T(n)`
produces `n`; default initialization is ill-formed. -/
def NonTrivialP : Payload Int Int :=
  { tr := { destructible := true, triviallyDestructible := true, dtorNoexcept := true }
    defaultNew := none
    parenNew := fun n => some n
    braceNew := fun n => some n
    defaultNoexcept := false
    parenNoexcept := fun _ => true
    braceNoexcept := fun _ => true }

/-- C++20 integral conversion of a wider integer to `std::int32_t`:
the result is congruent to the argument modulo 2^32 and lies in
[-2^31, 2^31). -/
def wrap32 (k : Int) : Int := (k + 2147483648) % 4294967296 - 2147483648

/-- The payload `T = std::int32_t` with a single argument of type
`std::int64_t`: `::new (p) T(arg)` is well-formed and performs the
(possibly lossy) integral conversion, while `::new (p) T{arg}` is a
narrowing conversion from a non-constant wider integer and therefore
ill-formed, so `detail::brace_constructible_from<int32_t, int64_t>` is
not satisfied. -/
def int32OfInt64 : Payload Int Int :=
  { tr := { destructible := true, triviallyDestructible := true, dtorNoexcept := true }
    defaultNew := some id
    parenNew := fun k => some (wrap32 k)
    braceNew := fun _ => none
    defaultNoexcept := true
    parenNoexcept := fun _ => true
    braceNoexcept := fun _ => true }

/-- The payload `T = int` with a single `int` argument: every
construction form is well-formed, `T(n)` and `T{n}` produce `n`, and
default initialization leaves the storage untouched.  All forms are
noexcept and so is the destructor. -/
def intP : Payload Int Int :=
  { tr := { destructible := true, triviallyDestructible := true, dtorNoexcept := true }
    defaultNew := some id
    parenNew := fun n => some n
    braceNew := fun n => some n
    defaultNoexcept := true
    parenNoexcept := fun _ => true
    braceNoexcept := fun _ => true }

/-- Round `n` up to the next multiple of `a`. -/
def roundUp (n a : Nat) : Nat := a * ((n + a - 1) / a)

/-- Alignment of a C++ union: the strictest (largest) alignment among
its members (at least 1). -/
def unionAlign (ms : List (Nat × Nat)) : Nat :=
  ms.foldr (fun m r => max m.2 r) 1

/-- Largest member size of a C++ union. -/
def membersMaxSize (ms : List (Nat × Nat)) : Nat :=
  ms.foldr (fun m r => max m.1 r) 0

/-- Size of a C++ union: the largest member size, rounded up to the
union's alignment. -/
def unionSize (ms : List (Nat × Nat)) : Nat :=
  roundUp (membersMaxSize ms) (unionAlign ms)

/-- The members of the `maybe_uninit` union, as (size, alignment) pairs:
its only non-static data member is the storage `T object` (v2 line 576;
v1 line 52, `T m_t`) — no liveness flag, no other runtime field. -/
def cellMembers (szT alT : Nat) : List (Nat × Nat) := [(szT, alT)]

/-- `sizeof(maybe_uninit<T>)` under the C++ union layout model. -/
def cellSize (szT alT : Nat) : Nat := unionSize (cellMembers szT alT)

/-- `alignof(maybe_uninit<T>)` under the C++ union layout model. -/
def cellAlign (szT alT : Nat) : Nat := unionAlign (cellMembers szT alT)

/-- Compile-time triviality traits of `T`'s copy/move operations, as
queried by the v1 requires-clauses (lines 55-69) and by the implicit
special-member rules for unions in v2 (line 415). -/
structure CopyTraits where
  trivCopyCtor : Bool
  trivMoveCtor : Bool
  trivCopyAssign : Bool
  trivMoveAssign : Bool
deriving DecidableEq

/-- The cell's copy constructor (v1 lines 55-57; v2 implicit union
rule): defaulted, hence a copy of the object representation, and only
declared when `std::is_trivially_copy_constructible_v<T>`; otherwise the
cell cannot be copied at all (`none` = ill-formed). -/
def cellCopyCtor (A : Type) (c : CopyTraits) : Option (Cell A → Cell A) :=
  if c.trivCopyCtor then some (fun s => s) else none

/-- The cell's move constructor (v1 lines 59-61; v2 implicit union
rule): available only when `std::is_trivially_move_constructible_v<T>`,
in which case it is a copy of the object representation. -/
def cellMoveCtor (A : Type) (c : CopyTraits) : Option (Cell A → Cell A) :=
  if c.trivMoveCtor then some (fun s => s) else none

/-- The cell's copy assignment (v1 lines 63-65; v2 implicit union rule):
available only when `std::is_trivially_copy_assignable_v<T>`, in which
case the target takes the source's object representation. -/
def cellCopyAssign (A : Type) (c : CopyTraits) : Option (Cell A → Cell A → Cell A) :=
  if c.trivCopyAssign then some (fun _dst src => src) else none

/-- The cell's move assignment (v1 lines 67-69; v2 implicit union rule):
available only when `std::is_trivially_move_assignable_v<T>`. -/
def cellMoveAssign (A : Type) (c : CopyTraits) : Option (Cell A → Cell A → Cell A) :=
  if c.trivMoveAssign then some (fun _dst src => src) else none

/-- noexcept specification of the default constructor `maybe_uninit()`
(v2 line 418): unconditionally noexcept. -/
def uninit_ctor_noexcept : Bool := true

/-- noexcept specification of the tag constructor
`maybe_uninit(default_init_t)` (v2 line 423):
`noexcept(detail::nothrow_default_constructible<T>)`. -/
def default_tag_noexcept (P : Payload α β) : Bool :=
  nothrow_default_constructible P

/-- noexcept specification of `maybe_uninit(paren_init_t, Args&&...)`
(v2 line 438): `noexcept(detail::nothrow_paren_constructible_from<T, Args...>)`. -/
def paren_tag_noexcept (P : Payload α β) (args : β) : Bool :=
  nothrow_paren_constructible_from P args

/-- noexcept specification of `maybe_uninit(brace_init_t, Args&&...)`
(v2 line 453): `noexcept(detail::nothrow_brace_constructible_from<T, Args...>)`. -/
def brace_tag_noexcept (P : Payload α β) (args : β) : Bool :=
  nothrow_brace_constructible_from P args

/-- noexcept specification of the member `default_init` (v2 line 479). -/
def default_init_member_noexcept (P : Payload α β) : Bool :=
  nothrow_default_constructible P

/-- noexcept specification of the member `paren_init` (v2 line 497). -/
def paren_init_member_noexcept (P : Payload α β) (args : β) : Bool :=
  nothrow_paren_constructible_from P args

/-- noexcept specification of the member `brace_init` (v2 line 515). -/
def brace_init_member_noexcept (P : Payload α β) (args : β) : Bool :=
  nothrow_brace_constructible_from P args

/-- noexcept specification of the free `default_init<T>()` (v2 line 605). -/
def free_default_init_noexcept (P : Payload α β) : Bool :=
  nothrow_default_constructible P

/-- noexcept specification of the free `paren_init<T>(Args&&...)`
(v2 lines 614, 625). -/
def free_paren_init_noexcept (P : Payload α β) (args : β) : Bool :=
  nothrow_paren_constructible_from P args

/-- noexcept specification of the free `brace_init<T>(Args&&...)`
(v2 lines 635, 646). -/
def free_brace_init_noexcept (P : Payload α β) (args : β) : Bool :=
  nothrow_brace_constructible_from P args

/-- noexcept specification of `ptr` (v2 line 530): unconditional. -/
def ptr_noexcept : Bool := true

/-- noexcept specification of `ref` (v2 line 539): unconditional. -/
def ref_noexcept : Bool := true

/-- noexcept specification of `bytes` (v2 line 552): unconditional. -/
def bytes_noexcept : Bool := true

/-- noexcept specification of v1 `assume_init` (lines 149-161):
unconditional. -/
def assume_init_noexcept : Bool := true

/-- `std::is_nothrow_destructible_v<T>`: `T` is destructible and its
destructor is noexcept. -/
def is_nothrow_destructible (tr : Traits) : Bool :=
  tr.destructible && tr.dtorNoexcept

/-- noexcept specification of v2 `destroy` (line 568):
`noexcept(std::is_nothrow_destructible_v<T>)`. -/
def destroy_noexcept (tr : Traits) : Bool := is_nothrow_destructible tr

/-- noexcept specification of v1 `destruct` (line 164):
`noexcept(std::is_nothrow_destructible_v<T>)`. -/
def destruct_noexcept (tr : Traits) : Bool := is_nothrow_destructible tr

/-- C3: each construction strategy of the later variant (default, paren,
brace), whenever the call is well-formed, returns a reference to exactly
the value newly stored in the cell, and leaves that value live; in
particular, paren-construction of the README's `NonTrivial` (deleted
default constructor, single-`int` constructor) from `42` stores a live
value equal to the direct construction `NonTrivial(42)`, while default
initialization of that payload is ill-formed. -/
theorem strategies_return_new_value (P : Payload α β) (s : Cell α) (args : β) :
    (∀ t, default_init P s = some t → t.2 = t.1.val ∧ t.1.live = true)
    ∧ (∀ t, paren_init P s args = some t → t.2 = t.1.val ∧ t.1.live = true)
    ∧ (∀ t, brace_init P s args = some t → t.2 = t.1.val ∧ t.1.live = true)
    ∧ paren_init NonTrivialP (mkUninit 0) 42 = some (constructAt 42 (mkUninit 0), 42)
    ∧ NonTrivialP.parenNew 42 = some 42
    ∧ default_constructible NonTrivialP = false := by
  refine ⟨?_, ?_, ?_, by decide, by decide, by decide⟩
  · intro t h
    unfold default_init at h
    cases hd : P.defaultNew with
    | none => rw [hd] at h; cases h
    | some f => rw [hd] at h; cases h; exact ⟨rfl, rfl⟩
  · intro t h
    unfold paren_init at h
    cases hd : P.parenNew args with
    | none => rw [hd] at h; cases h
    | some v => rw [hd] at h; cases h; exact ⟨rfl, rfl⟩
  · intro t h
    unfold brace_init at h
    cases hd : P.braceNew args with
    | none => rw [hd] at h; cases h
    | some v => rw [hd] at h; cases h; exact ⟨rfl, rfl⟩

/-- Witness for C3 at the concrete `NonTrivial` payload: the paren
strategy's success case applied to the cell and reference it actually
produces. -/
theorem strategies_return_new_value_witness :
    ((constructAt (42 : Int) (mkUninit 0), (42 : Int))).2
        = ((constructAt (42 : Int) (mkUninit 0), (42 : Int))).1.val
    ∧ ((constructAt (42 : Int) (mkUninit 0), (42 : Int))).1.live = true :=
  (strategies_return_new_value NonTrivialP (mkUninit 0) 42).2.1
    (constructAt 42 (mkUninit 0), 42) (by decide)

/-- C4: for the fixed-size integer payload `std::int32_t` and a wider
`std::int64_t` argument, brace initialization is ill-formed (the call
cannot be authored) for every such argument, while paren initialization
is well-formed and performs the lossy modular conversion: at the
out-of-range argument 2^31 the stored value is -2^31, not 2^31. -/
theorem brace_rejects_narrowing_paren_accepts :
    (∀ (s : Cell Int) (k : Int), brace_init int32OfInt64 s k = none)
    ∧ (∀ s : Cell Int,
        paren_init int32OfInt64 s 2147483648
          = some (constructAt (-2147483648) s, -2147483648))
    ∧ wrap32 2147483648 = -2147483648
    ∧ (-2147483648 : Int) ≠ 2147483648 := by
  have hw : wrap32 2147483648 = -2147483648 := by decide
  refine ⟨fun s k => rfl, fun s => ?_, hw, by decide⟩
  show (match int32OfInt64.parenNew 2147483648 with
        | none => none
        | some v => some (constructAt v s, v)) = _
  have : int32OfInt64.parenNew 2147483648 = some (-2147483648) := by
    show some (wrap32 2147483648) = some (-2147483648)
    rw [hw]
  rw [this]

/-- C5: for every payload and argument list, tag-based construction at
creation time (and each free-function shorthand) produces exactly the
cell that creating an uninitialized cell and invoking the corresponding
member strategy produces, and is ill-formed exactly when the two-step
form is — identical state and identical failure semantics, for all
three strategies. -/
theorem tag_ctor_equals_two_step (P : Payload α β) (junk : α) (args : β) :
    mkDefaultTag P junk = (default_init P (mkUninit junk)).map Prod.fst
    ∧ mkParenTag P junk args = (paren_init P (mkUninit junk) args).map Prod.fst
    ∧ mkBraceTag P junk args = (brace_init P (mkUninit junk) args).map Prod.fst
    ∧ free_default_init P junk = (default_init P (mkUninit junk)).map Prod.fst
    ∧ free_paren_init P junk args = (paren_init P (mkUninit junk) args).map Prod.fst
    ∧ free_brace_init P junk args = (brace_init P (mkUninit junk) args).map Prod.fst := by
  have hd : mkDefaultTag P junk = (default_init P (mkUninit junk)).map Prod.fst := by
    unfold mkDefaultTag default_constructible default_init
    cases P.defaultNew with
    | none => simp
    | some f => simp
  have hp : mkParenTag P junk args = (paren_init P (mkUninit junk) args).map Prod.fst := by
    unfold mkParenTag paren_constructible_from paren_init
    cases P.parenNew args with
    | none => simp
    | some v => simp
  have hb : mkBraceTag P junk args = (brace_init P (mkUninit junk) args).map Prod.fst := by
    unfold mkBraceTag brace_constructible_from brace_init
    cases P.braceNew args with
    | none => simp
    | some v => simp
  refine ⟨hd, hp, hb, ?_, ?_, ?_⟩
  · unfold free_default_init
    rw [← hd]
    unfold mkDefaultTag
    cases h : default_constructible P <;> simp [h]
  · unfold free_paren_init
    rw [← hp]
    unfold mkParenTag
    cases h : paren_constructible_from P args <;> simp [h]
  · unfold free_brace_init
    rw [← hb]
    unfold mkBraceTag
    cases h : brace_constructible_from P args <;> simp [h]

/-- C6: under the C++ layout model of a union whose only member is the
storage `T object`, the cell's size equals `sizeof(T)` and its alignment
equals `alignof(T)` (using the language guarantees that alignment is
positive and divides the size); the member list really is just the one
storage member, so no operation can perturb the layout. -/
theorem cell_layout_equals_payload (szT alT : Nat) (hal : 0 < alT) (hdvd : alT ∣ szT) :
    cellSize szT alT = szT
    ∧ cellAlign szT alT = alT
    ∧ cellMembers szT alT = [(szT, alT)] := by
  have halign : cellAlign szT alT = alT := by
    unfold cellAlign unionAlign cellMembers
    simp [Nat.max_eq_left hal]
  refine ⟨?_, halign, rfl⟩
  unfold cellSize unionSize cellMembers
  have hms : membersMaxSize [(szT, alT)] = szT := by
    unfold membersMaxSize
    simp
  have hua : unionAlign [(szT, alT)] = alT := halign
  rw [hms, hua]
  obtain ⟨c, hc⟩ := hdvd
  subst hc
  unfold roundUp
  have h1 : alT * c + alT - 1 = (alT - 1) + alT * c := by omega
  rw [h1, Nat.add_mul_div_left _ _ hal]
  have h2 : (alT - 1) / alT = 0 := Nat.div_eq_of_lt (by omega)
  rw [h2, Nat.zero_add]

/-- Witness for C6 at `sizeof(T) = alignof(T) = 4` (e.g.
`T = std::uint32_t`). -/
theorem cell_layout_equals_payload_witness :
    cellSize 4 4 = 4 ∧ cellAlign 4 4 = 4 ∧ cellMembers 4 4 = [(4, 4)] :=
  cell_layout_equals_payload 4 4 (by decide) (by decide)

/-- C7: the byte view's constness is const exactly when the accessing
handle or `T` is const; the view has exactly `sizeof(uint32_t) = 4`
bytes aliased to the storage; and on a little-endian target, writing the
bytes 0x67, 0x45, 0x23, 0x01 through the view and reading through
`ref()` yields 0x01234567 — conversely, the view of a cell holding
0x01234567 is exactly that byte pattern. -/
theorem byte_view_roundtrip :
    (∀ sc tc : Bool, bytesConst sc tc = true ↔ (sc = true ∨ tc = true))
    ∧ (∀ s : Cell Nat, (bytesU32 s).length = 4)
    ∧ ref (writeBytesU32 (mkUninit 0) [0x67, 0x45, 0x23, 0x01]) = 0x01234567
    ∧ bytesU32 (constructAt 0x01234567 (mkUninit 0)) = [0x67, 0x45, 0x23, 0x01] := by
  refine ⟨by decide, fun s => rfl, by decide, by decide⟩

/-- C8: the cell is reusable across construct/destroy cycles: whenever
`T` is paren-constructible from `a` (producing `va`) and from `b`
(producing `vb`), the sequence paren-init with `a`, `destroy`, paren-init
with `b` succeeds and leaves a second live value equal to the direct
construction result `vb`. -/
theorem cell_reusable_after_destroy (P : Payload α β) (s : Cell α) (a b : β)
    (va vb : α) (ha : P.parenNew a = some va) (hb : P.parenNew b = some vb) :
    ∃ s1 : Cell α,
      paren_init P s a = some (s1, va)
      ∧ ∃ s2 : Cell α,
          paren_init P (destroy P.tr s1) b = some (s2, vb)
          ∧ s2.val = vb ∧ s2.live = true := by
  refine ⟨constructAt va s, ?_, constructAt vb (destroy P.tr (constructAt va s)), ?_, rfl, rfl⟩
  · unfold paren_init
    rw [ha]
  · unfold paren_init
    rw [hb]

/-- Witness for C8 at the `NonTrivial` payload, constructing from 1,
destroying, then constructing from 2. -/
theorem cell_reusable_after_destroy_witness :
    ∃ s1 : Cell Int,
      paren_init NonTrivialP (mkUninit 0) 1 = some (s1, 1)
      ∧ ∃ s2 : Cell Int,
          paren_init NonTrivialP (destroy NonTrivialP.tr s1) 2 = some (s2, 2)
          ∧ s2.val = 2 ∧ s2.live = true :=
  cell_reusable_after_destroy NonTrivialP (mkUninit 0) 1 2 1 2 rfl rfl

/-- C9: each of the cell's four copy/move special members is available
exactly when `T`'s corresponding operation is trivial, and when
available it is the defaulted object-representation copy; when `T`'s
operation is non-trivial the member is absent (`none`), i.e. copying or
assigning the cell is a compile-time error, never a silent shallow copy
of a non-trivial payload. -/
theorem special_members_available_iff_trivial (A : Type) (c : CopyTraits) :
    (cellCopyCtor A c).isSome = c.trivCopyCtor
    ∧ (cellMoveCtor A c).isSome = c.trivMoveCtor
    ∧ (cellCopyAssign A c).isSome = c.trivCopyAssign
    ∧ (cellMoveAssign A c).isSome = c.trivMoveAssign
    ∧ (∀ f, cellCopyCtor A c = some f → ∀ s : Cell A, f s = s)
    ∧ (∀ f, cellCopyAssign A c = some f → ∀ dst src : Cell A, f dst src = src) := by
  refine ⟨?_, ?_, ?_, ?_, ?_, ?_⟩
  · unfold cellCopyCtor; cases c.trivCopyCtor <;> simp
  · unfold cellMoveCtor; cases c.trivMoveCtor <;> simp
  · unfold cellCopyAssign; cases c.trivCopyAssign <;> simp
  · unfold cellMoveAssign; cases c.trivMoveAssign <;> simp
  · intro f hf s
    unfold cellCopyCtor at hf
    cases h : c.trivCopyCtor with
    | false => rw [h] at hf; cases hf
    | true => rw [h] at hf; simp at hf; rw [← hf]
  · intro f hf dst src
    unfold cellCopyAssign at hf
    cases h : c.trivCopyAssign with
    | false => rw [h] at hf; cases hf
    | true => rw [h] at hf; simp at hf; rw [← hf]

/-- Trait table of a payload all four of whose copy/move operations are
trivial (e.g. `T = int`). -/
def allTrivialCM : CopyTraits := ⟨true, true, true, true⟩

/-- Witness for C9 at the all-trivial trait table: the copy constructor
exists and copies the object representation. -/
theorem special_members_available_iff_trivial_witness :
    (cellCopyCtor Nat allTrivialCM).isSome = true
    ∧ (fun s : Cell Nat => s) ntLiveCell = ntLiveCell :=
  ⟨(special_members_available_iff_trivial Nat allTrivialCM).1,
   (special_members_available_iff_trivial Nat allTrivialCM).2.2.2.2.1
     (fun s => s) rfl ntLiveCell⟩

/-- C10: whenever the corresponding call is well-formed, every
construction entry point (member strategy, tag constructor, free
function) is noexcept exactly when `T`'s corresponding constructor form
is noexcept; `destroy`/`destruct` are noexcept exactly when `T`'s
destructor is noexcept (given `T` destructible); and the uninitialized
constructor and the accessors `ptr`/`ref`/`assume_init`/`bytes` are
unconditionally noexcept. -/
theorem noexcept_propagation (P : Payload α β) (args : β)
    (hd : default_constructible P = true)
    (hp : paren_constructible_from P args = true)
    (hb : brace_constructible_from P args = true)
    (hdtor : P.tr.destructible = true) :
    default_tag_noexcept P = P.defaultNoexcept
    ∧ paren_tag_noexcept P args = P.parenNoexcept args
    ∧ brace_tag_noexcept P args = P.braceNoexcept args
    ∧ default_init_member_noexcept P = P.defaultNoexcept
    ∧ paren_init_member_noexcept P args = P.parenNoexcept args
    ∧ brace_init_member_noexcept P args = P.braceNoexcept args
    ∧ free_default_init_noexcept P = P.defaultNoexcept
    ∧ free_paren_init_noexcept P args = P.parenNoexcept args
    ∧ free_brace_init_noexcept P args = P.braceNoexcept args
    ∧ destroy_noexcept P.tr = P.tr.dtorNoexcept
    ∧ destruct_noexcept P.tr = P.tr.dtorNoexcept
    ∧ uninit_ctor_noexcept = true
    ∧ ptr_noexcept = true
    ∧ ref_noexcept = true
    ∧ bytes_noexcept = true
    ∧ assume_init_noexcept = true := by
  unfold default_constructible at hd
  unfold paren_constructible_from at hp
  unfold brace_constructible_from at hb
  have h1 : default_tag_noexcept P = P.defaultNoexcept := by
    unfold default_tag_noexcept nothrow_default_constructible
    rw [hd, Bool.true_and]
  have h2 : paren_tag_noexcept P args = P.parenNoexcept args := by
    unfold paren_tag_noexcept nothrow_paren_constructible_from
    rw [hp, Bool.true_and]
  have h3 : brace_tag_noexcept P args = P.braceNoexcept args := by
    unfold brace_tag_noexcept nothrow_brace_constructible_from
    rw [hb, Bool.true_and]
  have h4 : destroy_noexcept P.tr = P.tr.dtorNoexcept := by
    unfold destroy_noexcept is_nothrow_destructible
    rw [hdtor, Bool.true_and]
  exact ⟨h1, h2, h3, h1, h2, h3, h1, h2, h3, h4, h4, rfl, rfl, rfl, rfl, rfl⟩

/-- Witness for C10 at the plain `int` payload, where every
construction form is well-formed and the type is destructible. -/
theorem noexcept_propagation_witness :
    default_tag_noexcept intP = intP.defaultNoexcept
    ∧ paren_tag_noexcept intP 0 = intP.parenNoexcept 0
    ∧ destroy_noexcept intP.tr = intP.tr.dtorNoexcept :=
  ⟨(noexcept_propagation intP 0 (by decide) rfl rfl rfl).1,
   (noexcept_propagation intP 0 (by decide) rfl rfl rfl).2.1,
   (noexcept_propagation intP 0 (by decide) rfl rfl rfl).2.2.2.2.2.2.2.2.2.1⟩

end MaybeUninit
